import Mathlib

set_option maxHeartbeats 1000000

namespace Nvitop

/-! Shallow embedding of the nvitop device panel (`nvitop/gui/screens/main/device.py`)
and the startup path of `nvitop/cli.py`.  Python strings are modelled as Lean `String`
(a structure over `List Char`), machine integers as `Nat`/`Int`, wall-clock time as a
`Nat` counted in tenths of a time unit, and the curses surface as a list of emitted
write operations. -/

/-- Python slice `s[n:]`. -/
def pyDrop (s : String) (n : Nat) : String := ⟨s.data.drop n⟩

/-- Python slice `s[:n]`. -/
def pyTake (s : String) (n : Nat) : String := ⟨s.data.take n⟩

/-- Python slice `s[:-1]`. -/
def pyDropLast (s : String) : String := ⟨s.data.dropLast⟩

/-- Python `s.startswith(p)`. -/
def pyStartsWith (s p : String) : Bool := p.data.isPrefixOf s.data

/-- Python single-character repetition `c * n`. -/
def chRepeat (c : Char) (n : Nat) : String := ⟨List.replicate n c⟩

/-- Python `s.rjust(w)`, the effect of a right-aligned width-`w` format field. -/
def pyRJust (s : String) (w : Nat) : String := ⟨List.replicate (w - s.data.length) ' ' ++ s.data⟩

/-- Python `s.ljust(w)`, the effect of a left-aligned width-`w` format field. -/
def pyLJust (s : String) (w : Nat) : String := ⟨s.data ++ List.replicate (w - s.data.length) ' '⟩

/-- Replacement of the first occurrence of `pat`, Python `s.replace(pat, repl, 1)`
for a nonempty pattern (every pattern used by the panel is nonempty). -/
def replaceFirstAux (pat repl : List Char) : List Char → List Char
  | [] => []
  | c :: rest =>
    if pat.isPrefixOf (c :: rest) then repl ++ (c :: rest).drop pat.length
    else c :: replaceFirstAux pat repl rest

/-- Fuelled replacement of every occurrence of `pat`, Python `s.replace(pat, repl)`
for a nonempty pattern; occurrences are found left to right without overlap. -/
def replaceAllAux (pat repl : List Char) : Nat → List Char → List Char
  | 0, l => l
  | _ + 1, [] => []
  | fuel + 1, c :: rest =>
    if pat.isPrefixOf (c :: rest) then repl ++ replaceAllAux pat repl fuel ((c :: rest).drop pat.length)
    else c :: replaceAllAux pat repl fuel rest

/-- Python `s.replace(pat, repl)`. -/
def pyReplace (s pat repl : String) : String := ⟨replaceAllAux pat.data repl.data s.data.length s.data⟩

/-- Python `s.replace(pat, repl, 1)`. -/
def pyReplaceFirst (s pat repl : String) : String := ⟨replaceFirstAux pat.data repl.data s.data⟩

/-- Does `pat` occur as a contiguous run somewhere in the list? -/
def isInfixAux (pat : List Char) : List Char → Bool
  | [] => pat.isEmpty
  | c :: rest => pat.isPrefixOf (c :: rest) || isInfixAux pat rest

/-- Python containment test `sub in s`. -/
def pyContains (s sub : String) : Bool := isInfixAux sub.data s.data

/-- Alignment argument of `cut_string`. -/
inductive Align
  | left
  | right
deriving DecidableEq

/-- Modelled from the spec: `cut_string` lives in `nvitop.gui.library.utils`, which is
absent from the inspected sources.  The spec fixes that an over-long string is truncated
to at most `maxlen` characters; with right alignment the pad string is prepended to the
kept tail, with left alignment it is appended to the kept head. -/
def cut_string (s : String) (maxlen : Nat) (padstr : String) (align : Align) : String :=
  if s.data.length ≤ maxlen then s
  else
    match align with
    | .left => pyTake s (maxlen - padstr.data.length) ++ padstr
    | .right => padstr ++ pyDrop s (s.data.length - (maxlen - padstr.data.length))

/-- One device snapshot as produced by the external provider (`device.as_snapshot()`):
the fields the panel reads or rewrites.  `real` is the identity handle used for the
selection comparison. -/
structure RawSnapshot where
  index : Nat
  real : Nat
  name : String
  current_driver_model : String
  display_active : String
  persistence_mode : String
  mig_mode : String
  compute_mode : String
  fan_speed : Nat
  fan_speed_string : String
  temperature_string : String
  performance_state : String
  power_status : String
  memory_usage : String
  gpu_utilization_string : String
  bus_id : String
  total_volatile_uncorrected_ecc_errors : String
  memory_percent : Nat
  gpu_utilization : Nat
  display_color : String
  memory_display_color : String
  gpu_display_color : String
deriving DecidableEq

/-- Body of the per-device loop of `DevicePanel.take_snapshots` (device.py lines
102-112): name normalization and truncation, cosmetic field rewrites, fan-speed cap. -/
def transformDevice (d : RawSnapshot) : RawSnapshot :=
  let name1 := if pyStartsWith d.name "NVIDIA " then pyReplaceFirst d.name "NVIDIA " "" else d.name
  { d with
    name := cut_string name1 18 ".." .right
    current_driver_model := pyReplace d.current_driver_model "WDM" "TCC"
    display_active := pyReplace (pyReplace d.display_active "Enabled" "On") "Disabled" "Off"
    persistence_mode := pyReplace (pyReplace d.persistence_mode "Enabled" "On") "Disabled" "Off"
    mig_mode := pyReplace d.mig_mode "N/A" "N/A "
    compute_mode := pyReplace d.compute_mode "Exclusive" "E."
    fan_speed_string := if 100 ≤ d.fan_speed then "MAX" else d.fan_speed_string }

/-- The provider sweep of `take_snapshots`: `list(map(lambda device:
device.as_snapshot(), self.devices))` followed by the normalization loop. -/
def computeSnapshots (devices : List RawSnapshot) : List RawSnapshot :=
  devices.map transformDevice

theorem cut_string_right_length_le (s : String) (maxlen : Nat) (padstr : String)
    (h : padstr.data.length ≤ maxlen) :
    (cut_string s maxlen padstr .right).data.length ≤ maxlen := by
  unfold cut_string
  split
  · assumption
  · rename_i hlen
    push_neg at hlen
    have hdata : (padstr ++ pyDrop s (s.data.length - (maxlen - padstr.data.length))).data
        = padstr.data ++ s.data.drop (s.data.length - (maxlen - padstr.data.length)) := rfl
    rw [hdata]
    simp only [List.length_append, List.length_drop]
    omega

/-- Events emitted by the panel operations, used to express the locking discipline:
`acquire`/`release` bracket the snapshot lock, `writeSnapshots` is the store to the
render-visible list, `writeBuffer` the store to the staged list, `startDaemon` the
deferred start of the background poller, `basePoke` the `super().poke()` call. -/
inductive Ev
  | acquire
  | release
  | writeSnapshots
  | writeBuffer
  | startDaemon
  | basePoke
deriving DecidableEq

/-- State of one `DevicePanel`.  Wall-clock time is a `Nat` in tenths of a time unit;
`cache` is the entry of the `ttl_cache(ttl=1.0)` wrapper around `take_snapshots`
(result plus insertion time); `daemon_running` is the `threading.Event` checked by the
poller; the `threading.Lock` itself carries no state here, its acquisitions are
recorded in the event traces. -/
structure PanelState where
  devices : List RawSnapshot
  device_count : Nat
  compact : Bool
  _width : Nat
  full_height : Nat
  compact_height : Nat
  height : Nat
  driver_version : String
  cuda_version : String
  _snapshot_buffer : List RawSnapshot
  _snapshots : List RawSnapshot
  cache : Option (List RawSnapshot × Nat)
  daemon_running : Bool
  need_redraw : Bool
  visible : Bool
  x : Int
  y : Int
  windows : Bool
  support_mig : Bool
  parentSelected : Option Nat
deriving DecidableEq

/-- The dedup window of `ttl_cache(ttl=1.0)`, in tenths of a time unit. -/
def TTL : Nat := 10

/-- The uncached body of `take_snapshots` (device.py lines 100-117): sweep the
provider over every tracked device, normalize, stage into `_snapshot_buffer` under the
lock, and (through the `ttl_cache` wrapper) record the result with its insertion
time.  The returned `Bool` is `true` because a provider query happened. -/
def takeFresh (s : PanelState) (now : Nat) :
    List RawSnapshot × PanelState × Bool × List Ev :=
  let snaps := computeSnapshots s.devices
  (snaps,
   { s with _snapshot_buffer := snaps, cache := some (snaps, now) },
   true,
   [.acquire, .writeBuffer, .release])

/-- `DevicePanel.take_snapshots` as seen through its `ttl_cache(ttl=1.0)` decorator:
a call finding a cache entry younger than the TTL (measured from the entry's
insertion time) returns the cached list without running the body; otherwise the body
runs.  Returns (result, new state, whether a provider query happened, lock events). -/
def take_snapshots (s : PanelState) (now : Nat) :
    List RawSnapshot × PanelState × Bool × List Ev :=
  match s.cache with
  | some (r, t0) => if now < t0 + TTL then (r, s, false, []) else takeFresh s now
  | none => takeFresh s now

/-- The `snapshots` property setter (device.py lines 93-96): store under the lock. -/
def snapshots_set (s : PanelState) (l : List RawSnapshot) : PanelState × List Ev :=
  ({ s with _snapshots := l }, [.acquire, .writeSnapshots, .release])

/-- The `width` property setter (device.py lines 71-76): clamp to at least 79 and
mark for redraw when the clamped value changes while visible. -/
def width_set (s : PanelState) (value : Nat) : PanelState :=
  let width := max 79 value
  { s with
    _width := width
    need_redraw := if s._width ≠ width ∧ s.visible = true then true else s.need_redraw }

/-- The `compact` property setter (device.py lines 82-87). -/
def compact_set (s : PanelState) (value : Bool) : PanelState :=
  if s.compact ≠ value then
    { s with need_redraw := true, compact := value,
             height := if value then s.compact_height else s.full_height }
  else s

/-- `DevicePanel.poke` (device.py lines 182-189): start the poller on first poke, then
swap the staged buffer into the render-visible list through the `snapshots` setter
(hence under the lock), then `super().poke()` (modelled from the spec: the base class is
absent from the inspected sources and its poke mutates no panel state). -/
def poke (s : PanelState) : PanelState × List Ev :=
  let step1 : PanelState × List Ev :=
    if s.daemon_running = false then ({ s with daemon_running := true }, [Ev.startDaemon])
    else (s, [])
  let step2 := snapshots_set step1.1 step1.1._snapshot_buffer
  (step2.1, step1.2 ++ step2.2 ++ [Ev.basePoke])

/-- `DevicePanel.destroy` (device.py lines 255-257): base teardown then clear the
poller's running flag. -/
def destroy (s : PanelState) : PanelState :=
  { s with daemon_running := false }

/-- `DevicePanel.__init__` (device.py lines 21-65): geometry and heights, the
zero-device collapse to height 6, the synchronous first snapshot (through the same
`ttl_cache`), and the MIG support probe over the fresh snapshots.  `windows` stands
for `host.WINDOWS`, `driver`/`cuda` for the provider version strings. -/
def DevicePanel_init (devices : List RawSnapshot) (compact : Bool) (rootWidth : Nat)
    (windows : Bool) (driver cuda : String) (x0 y0 : Int) (now : Nat) : PanelState :=
  let n := devices.length
  let full_h := 4 + 3 * (n + 1)
  let compact_h := 4 + 2 * (n + 1)
  let h := if compact then compact_h else full_h
  let s0 : PanelState :=
    { devices := devices
      device_count := n
      compact := compact
      _width := 0
      full_height := if n = 0 then 6 else full_h
      compact_height := if n = 0 then 6 else compact_h
      height := if n = 0 then 6 else h
      driver_version := driver
      cuda_version := cuda
      _snapshot_buffer := []
      _snapshots := []
      cache := none
      daemon_running := false
      need_redraw := false
      visible := true
      x := x0
      y := y0
      windows := windows
      support_mig := false
      parentSelected := none }
  let s1 := width_set s0 (max 79 rootWidth)
  let r := take_snapshots s1 now
  let s3 := (snapshots_set r.2.1 r.1).1
  { s3 with support_mig := r.1.any (fun d => !(pyContains d.mig_mode "N/A")) }

/-- `DevicePanel.header_lines` (device.py lines 125-154).  The three full-width
horizontal rules are the source's 79-column literals, written here as a repetition of
their 77 interior double-bar characters between their corner characters. -/
def header_lines (s : PanelState) (compact : Bool) : List String :=
  let base : List String :=
    ["╒" ++ chRepeat '═' 77 ++ "╕",
     "│ NVIDIA-SMI " ++ pyLJust s.driver_version 12 ++ " Driver Version: "
       ++ pyLJust s.driver_version 12 ++ " CUDA Version: " ++ pyLJust s.cuda_version 8 ++ " │"]
  if 0 < s.device_count then
    if compact then
      base ++
        ["├───────────────────────────────┬──────────────────────┬──────────────────────┤",
         "│ GPU Fan Temp Perf Pwr:Usg/Cap │         Memory-Usage │ GPU-Util  Compute M. │",
         "╞═══════════════════════════════╪══════════════════════╪══════════════════════╡"]
    else
      let l1 := "│ GPU  Name        Persistence-M│ Bus-Id        Disp.A │ Volatile Uncorr. ECC │"
      let l1 := if s.windows then pyReplace l1 "Persistence-M" "    TCC/WDDM " else l1
      let l1 := if s.support_mig then pyReplace l1 "Volatile Uncorr. ECC" "MIG M.   Uncorr. ECC" else l1
      base ++
        ["├───────────────────────────────┬──────────────────────┬──────────────────────┤",
         l1,
         "│ Fan  Temp  Perf  Pwr:Usage/Cap│         Memory-Usage │ GPU-Util  Compute M. │",
         "╞═══════════════════════════════╪══════════════════════╪══════════════════════╡"]
  else
    base ++
      ["╞" ++ chRepeat '═' 77 ++ "╡",
       "│  No visible devices found                                                   │",
       "╘" ++ chRepeat '═' 77 ++ "╛"]

/-- `DevicePanel.frame_lines` (device.py lines 156-180). -/
def frame_lines (s : PanelState) (compact : Bool) : List String :=
  let frame := header_lines s compact
  let remaining_width := s._width - 79
  let data_line := "│                               │                      │                      │"
  let separator_line := "├───────────────────────────────┼──────────────────────┼──────────────────────┤"
  let data_line :=
    if 100 ≤ s._width then data_line ++ chRepeat ' ' (remaining_width - 1) ++ "│" else data_line
  let separator_line :=
    if 100 ≤ s._width then
      pyDropLast separator_line ++ "┼" ++ chRepeat '─' (remaining_width - 1) ++ "┤"
    else separator_line
  if 0 < s.device_count then
    let frame := frame ++
      (List.replicate s.device_count
        (if compact then [data_line, separator_line] else [data_line, data_line, separator_line])).flatten
    let frame := frame.dropLast
    let frame := frame ++
      ["╘═══════════════════════════════╧══════════════════════╧══════════════════════╛"]
    if 100 ≤ s._width then
      let i := 5 - (if compact then 1 else 0)
      let frame := frame.set i
        (pyDropLast (frame.getD i "") ++ "╪" ++ chRepeat '═' (remaining_width - 1) ++ "╕")
      let lastIdx := frame.length - 1
      frame.set lastIdx
        (pyDropLast (frame.getD lastIdx "") ++ "╧" ++ chRepeat '═' (remaining_width - 1) ++ "╛")
    else frame
  else frame

/-- The compact per-device format row (device.py lines 46-49), embedded as the
function the stored format string denotes under Python `str.format`. -/
def fmtCompact (d : RawSnapshot) : String :=
  "│ " ++ pyRJust (toString d.index) 3 ++ " " ++ pyRJust d.fan_speed_string 3 ++ " "
    ++ pyRJust d.temperature_string 4 ++ " " ++ pyRJust d.performance_state 3 ++ " "
    ++ pyRJust d.power_status 12 ++ " │ " ++ pyRJust d.memory_usage 20 ++ " │ "
    ++ pyRJust d.gpu_utilization_string 7 ++ "  " ++ pyRJust d.compute_mode 11 ++ " │"

/-- First full per-device format row (device.py lines 50-52), with the Windows
driver-model substitution (line 58) and the MIG-mode substitution (lines 61-65). -/
def fmtFull0 (windows mig : Bool) (d : RawSnapshot) : String :=
  "│ " ++ pyRJust (toString d.index) 3 ++ "  " ++ pyLJust d.name 18 ++ "  "
    ++ pyLJust (if windows then d.current_driver_model else d.persistence_mode) 4
    ++ " │ " ++ pyLJust d.bus_id 16 ++ " " ++ pyRJust d.display_active 3 ++ " │ "
    ++ (if mig then
          pyRJust d.mig_mode 8 ++ "  " ++ pyRJust d.total_volatile_uncorrected_ecc_errors 10
        else pyRJust d.total_volatile_uncorrected_ecc_errors 20)
    ++ " │"

/-- Second full per-device format row (device.py lines 53-54). -/
def fmtFull1 (d : RawSnapshot) : String :=
  "│ " ++ pyRJust d.fan_speed_string 3 ++ "  " ++ pyRJust d.temperature_string 4 ++ "  "
    ++ pyRJust d.performance_state 4 ++ "  " ++ pyRJust d.power_status 12 ++ " │ "
    ++ pyRJust d.memory_usage 20 ++ " │ " ++ pyRJust d.gpu_utilization_string 7 ++ "  "
    ++ pyRJust d.compute_mode 11 ++ " │"

/-- One styled write to the curses surface: the surface is write-only, so a draw call
is fully described by the list of operations it emits. -/
inductive DrawOp
  | colorReset
  | addstr (y x : Int) (s : String)
  | colorAt (y x : Int) (width : Nat) (fg : String) (attr : String)
deriving DecidableEq

/-- Modelled from the spec: `make_bar` lives in `nvitop.gui.library.utils`, absent
from the inspected sources; the spec fixes only that the surface receives styled text
computed purely from the metric, so the bar is modelled as an injective pure rendering
of its arguments. -/
def make_bar (pre : String) (utilization : Nat) (width : Nat) : String :=
  pre ++ ": " ++ toString utilization ++ "% w" ++ toString width

/-- The timestamp write of `draw` (device.py line 201); the formatted wall-clock
string is an input of the embedding. -/
def clockOp (s : PanelState) (timeStr : String) : DrawOp :=
  .addstr s.y s.x (cut_string timeStr 32 "..." .left)

/-- The `need_redraw` block of `draw` (device.py lines 194-199): help hint, its two
magenta highlights, and the full frame. -/
def drawRedrawOps (s : PanelState) : List DrawOp :=
  if s.need_redraw then
    [.addstr s.y s.x (pyRJust "(Press h for help or q to quit)" 79),
     .colorAt s.y (s.x + 55) 1 "magenta" "bold | italic",
     .colorAt s.y (s.x + 69) 1 "magenta" "bold | italic"]
    ++ ((frame_lines s s.compact).enum.map fun p =>
          DrawOp.addstr (s.y + 1 + (p.1 : Int)) s.x p.2)
  else []

/-- Attribute chosen for one device row (device.py lines 210-219): bold for the
selected device, dim for the others, the zero attribute when nothing is selected. -/
def deviceAttr (s : PanelState) (d : RawSnapshot) : String :=
  match s.parentSelected with
  | some sel => if d.real = sel then "bold" else "dim"
  | none => "0"

/-- The two operations writing one utilization bar (device.py lines 250-253). -/
def barOps (s : PanelState) (attr : String) (x_offset yRow : Int) (w : Nat)
    (pre : String) (utilization : Nat) (color : String) : List DrawOp :=
  [.addstr yRow (s.x + 80 + x_offset) (make_bar pre utilization w),
   .colorAt yRow (s.x + 80 + x_offset) w color attr]

/-- The bar block of `draw` for one device (device.py lines 227-253), emitted only
when the panel is at least 100 columns wide. -/
def deviceBarOps (s : PanelState) (attr : String) (index : Nat) (d : RawSnapshot)
    (y_start : Int) : List DrawOp :=
  let remaining_width := s._width - 79
  if s.compact then
    if 44 ≤ remaining_width then
      let left_width := (remaining_width - 6 + 1) / 2 - 1
      let right_width := (remaining_width - 6) / 2 + 1
      [DrawOp.addstr (y_start - 1) (s.x + 80 + (left_width : Int) + 1)
         (if 0 < index then "┼" else "╤"),
       DrawOp.addstr y_start (s.x + 80 + (left_width : Int) + 1) "│"]
      ++ (if index = s._snapshots.length - 1 then
            [DrawOp.addstr (y_start + 1) (s.x + 80 + (left_width : Int) + 1) "╧"]
          else [])
      ++ barOps s attr 0 y_start left_width "MEM" d.memory_percent d.memory_display_color
      ++ barOps s attr ((left_width : Int) + 3) y_start right_width "UTL"
           d.gpu_utilization d.gpu_display_color
    else
      barOps s attr 0 y_start (remaining_width - 3) "MEM" d.memory_percent d.memory_display_color
  else
    barOps s attr 0 y_start (remaining_width - 3) "MEM" d.memory_percent d.memory_display_color
    ++ barOps s attr 0 (y_start + 1) (remaining_width - 3) "UTL"
         d.gpu_utilization d.gpu_display_color

/-- All operations for one device of the snapshot loop of `draw` (device.py lines
214-253). -/
def deviceOps (s : PanelState) (fmts : List (RawSnapshot → String)) (index : Nat)
    (d : RawSnapshot) : List DrawOp :=
  let y_start : Int := s.y + 4 + ((fmts.length : Int) + 1) * ((index : Int) + 1)
  let attr := deviceAttr s d
  (fmts.enum.map fun p =>
    [DrawOp.addstr (y_start + (p.1 : Int)) s.x (p.2 d),
     DrawOp.colorAt (y_start + (p.1 : Int)) (s.x + 1) 31 d.display_color attr,
     DrawOp.colorAt (y_start + (p.1 : Int)) (s.x + 33) 22 d.display_color attr,
     DrawOp.colorAt (y_start + (p.1 : Int)) (s.x + 56) 22 d.display_color attr]).flatten
  ++ (if 100 ≤ s._width then deviceBarOps s attr index d y_start else [])

/-- Operations of `draw` preceding the timestamp write: the color reset and the
`need_redraw` block. -/
def drawPre (s : PanelState) : List DrawOp :=
  DrawOp.colorReset :: drawRedrawOps s

/-- Operations of `draw` following the timestamp write: the per-device rows and bars,
driven by the active format set (device.py lines 203-206, 214-253). -/
def drawDevices (s : PanelState) : List DrawOp :=
  let fmts : List (RawSnapshot → String) :=
    if s.compact then [fmtCompact] else [fmtFull0 s.windows s.support_mig, fmtFull1]
  (s._snapshots.enum.map fun p => deviceOps s fmts p.1 p.2).flatten

/-- `DevicePanel.draw` (device.py lines 191-253): returns the unchanged panel state
and the emitted surface operations, in source order. -/
def draw (s : PanelState) (timeStr : String) : PanelState × List DrawOp :=
  (s, drawPre s ++ [clockOp s timeStr] ++ drawDevices s)

/-- Repeated foreground calls to `take_snapshots` at the given times: the sequence of
did-a-provider-query-happen flags and the final state. -/
def runCalls (s : PanelState) : List Nat → List Bool × PanelState
  | [] => ([], s)
  | t :: rest =>
    let r := take_snapshots s t
    let rec' := runCalls r.2.1 rest
    (r.2.2.1 :: rec'.1, rec'.2)

/-- Program counter of the background poller `_snapshot_target` (device.py lines
119-123): `waiting` inside `self._daemon_running.wait()`, `checking` at the
`is_set()` test of the loop head, `passedCheck` between a successful test and the
query, `midQuery` inside `take_snapshots`, `sleeping` inside the cadence sleep,
`exited` after the loop. -/
inductive PollerPC
  | waiting
  | checking
  | passedCheck
  | midQuery
  | sleeping
  | exited
deriving DecidableEq

/-- Observable poller events: the start and the completion of one provider query. -/
inductive PollEv
  | queryStart
  | queryEnd
deriving DecidableEq

/-- One step of the poller under the given value of the running flag: the flag is
consulted only in `waiting` and at the loop-head check, never inside a query. -/
def pollStep (flag : Bool) : PollerPC → PollerPC × Option PollEv
  | .waiting => (if flag then .checking else .waiting, none)
  | .checking => (if flag then .passedCheck else .exited, none)
  | .passedCheck => (.midQuery, some .queryStart)
  | .midQuery => (.sleeping, some .queryEnd)
  | .sleeping => (.checking, none)
  | .exited => (.exited, none)

/-- Events emitted by `n` poller steps under a constant running flag. -/
def runPoller (flag : Bool) : PollerPC → Nat → List PollEv
  | _, 0 => []
  | pc, n + 1 =>
    let r := pollStep flag pc
    r.2.toList ++ runPoller flag r.1 n

/-- Upper bound on the provider queries the poller can still begin once the running
flag is false, by program counter. -/
def startBound : PollerPC → Nat
  | .passedCheck => 1
  | _ => 0

/-- Checks that every buffer or snapshot store in a trace happens at positive lock
depth. -/
def writesLockedAux : Nat → List Ev → Bool
  | _, [] => true
  | depth, Ev.acquire :: rest => writesLockedAux (depth + 1) rest
  | depth, Ev.release :: rest => writesLockedAux (depth - 1) rest
  | depth, Ev.writeSnapshots :: rest => decide (0 < depth) && writesLockedAux depth rest
  | depth, Ev.writeBuffer :: rest => decide (0 < depth) && writesLockedAux depth rest
  | depth, _ :: rest => writesLockedAux depth rest

/-- Every store to the shared snapshot cells in the trace happens under the lock. -/
def writesLocked (tr : List Ev) : Bool := writesLockedAux 0 tr

/-- Outcome of `Device.count()` at startup (cli.py line 131): success, the library
missing, or another provider error carrying a message. -/
inductive CountResult
  | ok (n : Nat)
  | errLibraryNotFound
  | errOther (msg : String)
deriving DecidableEq

/-- What the startup path did: `exitCode = some c` means `main` returned `c` before
constructing the dashboard; `stderrLines` are the lines printed to the error stream. -/
structure StartupResult where
  exitCode : Option Nat
  stderrLines : List String
  dashboardConstructed : Bool
deriving DecidableEq

/-- Modelled from the spec: `colored` lives in `nvitop.gui.library.utils`, absent
from the inspected sources; the spec treats coloring as presentation only, so it is
modelled as the identity on the text (one line in stays one line out). -/
def colored (s : String) (color : String) : String := s

/-- The device-enumeration step of `main` (cli.py lines 130-136): a successful count
falls through to dashboard construction; `NVMLError_LibraryNotFound` returns 1 with
nothing printed; any other `NVMLError` prints one line to stderr and returns 1. -/
def mainEnumerate (r : CountResult) : StartupResult :=
  match r with
  | .ok _ => { exitCode := none, stderrLines := [], dashboardConstructed := true }
  | .errLibraryNotFound =>
      { exitCode := some 1, stderrLines := [], dashboardConstructed := false }
  | .errOther msg =>
      { exitCode := some 1,
        stderrLines := [colored "NVML ERROR:" "red" ++ " " ++ msg],
        dashboardConstructed := false }

/-- Is the enumeration outcome a provider error? -/
def isEnumError : CountResult → Bool
  | .ok _ => false
  | .errLibraryNotFound => true
  | .errOther _ => true

/-- A concrete provider snapshot used by witnesses and counterexamples. -/
def sampleDevice : RawSnapshot :=
  { index := 0
    real := 0
    name := "NVIDIA GeForce RTX 3080 Ti"
    current_driver_model := "WDM"
    display_active := "Enabled"
    persistence_mode := "Disabled"
    mig_mode := "N/A"
    compute_mode := "Exclusive Process"
    fan_speed := 100
    fan_speed_string := "100%"
    temperature_string := "45C"
    performance_state := "P2"
    power_status := "100W / 350W"
    memory_usage := "1000MiB / 12288MiB"
    gpu_utilization_string := "99%"
    bus_id := "00000000:01:00.0"
    total_volatile_uncorrected_ecc_errors := "0"
    memory_percent := 8
    gpu_utilization := 99
    display_color := "red"
    memory_display_color := "green"
    gpu_display_color := "red" }

/-- A concrete panel state with one device and an empty snapshot cache. -/
def sampleState0 : PanelState :=
  { devices := [sampleDevice]
    device_count := 1
    compact := false
    _width := 79
    full_height := 10
    compact_height := 8
    height := 10
    driver_version := "511.23"
    cuda_version := "11.6"
    _snapshot_buffer := []
    _snapshots := []
    cache := none
    daemon_running := false
    need_redraw := false
    visible := true
    x := 0
    y := 0
    windows := false
    support_mig := false
    parentSelected := none }

/-- The sample state with a populated snapshot cache inserted at time 0. -/
def sampleStateCached : PanelState :=
  { sampleState0 with cache := some ([], 0) }

theorem pyReplaceFirst_of_startsWith (s p : String) (h : pyStartsWith s p = true) :
    pyReplaceFirst s p "" = pyDrop s p.data.length := by
  unfold pyReplaceFirst pyDrop
  unfold pyStartsWith at h
  cases hs : s.data with
  | nil =>
    rw [hs] at h
    have : p.data <+: [] := by
      exact (List.isPrefixOf_iff_prefix).mp h
    simp at this
    simp [replaceFirstAux, hs, this]
  | cons c rest =>
    rw [hs] at h
    simp [replaceFirstAux, h]

/-- Claim C10: every snapshot produced by a fresh `take_snapshots` sweep has its name
normalized: a leading NVIDIA prefix is removed exactly once (the seven-character
prefix and nothing more), the result is truncated to at most 18 characters,
right-aligned behind the two-dot pad string when cut, and a device whose fan speed is
at least 100 gets the fan-speed string MAX. -/
theorem c10_take_snapshots_normalizes (s : PanelState) (now : Nat)
    (hc : s.cache = none) (d : RawSnapshot) (hd : d ∈ s.devices) :
    transformDevice d ∈ (take_snapshots s now).1 ∧
    (transformDevice d).name.data.length ≤ 18 ∧
    (transformDevice d).name =
      cut_string (if pyStartsWith d.name "NVIDIA " then pyDrop d.name 7 else d.name)
        18 ".." .right ∧
    (100 ≤ d.fan_speed → (transformDevice d).fan_speed_string = "MAX") := by
  refine ⟨?_, ?_, ?_, ?_⟩
  · simp only [take_snapshots, hc, takeFresh, computeSnapshots]
    exact List.mem_map_of_mem transformDevice hd
  · show (cut_string (if pyStartsWith d.name "NVIDIA " then pyReplaceFirst d.name "NVIDIA " ""
        else d.name) 18 ".." .right).data.length ≤ 18
    exact cut_string_right_length_le _ 18 ".." (by decide)
  · show cut_string (if pyStartsWith d.name "NVIDIA " then pyReplaceFirst d.name "NVIDIA " ""
        else d.name) 18 ".." .right = _
    by_cases h : pyStartsWith d.name "NVIDIA " = true
    · rw [if_pos h, if_pos h, pyReplaceFirst_of_startsWith d.name "NVIDIA " h]
      have h7 : ("NVIDIA " : String).data.length = 7 := by decide
      rw [h7]
    · rw [if_neg h, if_neg h]
  · intro h
    show (if 100 ≤ d.fan_speed then "MAX" else d.fan_speed_string) = "MAX"
    rw [if_pos h]

/-- Witness for claim C10 at the sample device, whose name carries the NVIDIA prefix
and whose fan runs at 100 percent. -/
theorem c10_take_snapshots_normalizes_witness :
    transformDevice sampleDevice ∈ (take_snapshots sampleState0 0).1 ∧
    (transformDevice sampleDevice).name.data.length ≤ 18 ∧
    (transformDevice sampleDevice).name =
      cut_string (if pyStartsWith sampleDevice.name "NVIDIA " then pyDrop sampleDevice.name 7
        else sampleDevice.name) 18 ".." .right ∧
    (transformDevice sampleDevice).fan_speed_string = "MAX" := by
  have h := c10_take_snapshots_normalizes sampleState0 0 rfl sampleDevice (List.Mem.head _)
  exact ⟨h.1, h.2.1, h.2.2.1, h.2.2.2 (by decide)⟩

/-- Claim C4: with zero tracked devices the constructor collapses the panel height to
the fixed minimum 6 in both compact and full mode, and the rendered header contains
the fixed no-devices placeholder line in either mode. -/
theorem c4_zero_devices (compact : Bool) (rootWidth : Nat) (windows : Bool)
    (driver cuda : String) (x0 y0 : Int) (now : Nat) :
    (DevicePanel_init [] compact rootWidth windows driver cuda x0 y0 now).height = 6 ∧
    (DevicePanel_init [] compact rootWidth windows driver cuda x0 y0 now).full_height = 6 ∧
    (DevicePanel_init [] compact rootWidth windows driver cuda x0 y0 now).compact_height = 6 ∧
    (∀ c : Bool,
      "│  No visible devices found                                                   │"
        ∈ header_lines (DevicePanel_init [] compact rootWidth windows driver cuda x0 y0 now) c) := by
  refine ⟨rfl, rfl, rfl, ?_⟩
  intro c
  exact List.Mem.tail _ (List.Mem.tail _ (List.Mem.tail _ (List.Mem.head _)))

/-- Claim C9: the width setter clamps every assigned value to at least 79 (storing
exactly the maximum of 79 and the value), and the constructor initializes the width
to the maximum of 79 and the root width; hence the stored width is always at least
79. -/
theorem c9_width_min :
    (∀ (s : PanelState) (v : Nat),
      (width_set s v)._width = max 79 v ∧ 79 ≤ (width_set s v)._width) ∧
    (∀ (devices : List RawSnapshot) (compact : Bool) (rootWidth : Nat) (windows : Bool)
       (driver cuda : String) (x0 y0 : Int) (now : Nat),
      (DevicePanel_init devices compact rootWidth windows driver cuda x0 y0 now)._width
        = max 79 rootWidth ∧
      79 ≤ (DevicePanel_init devices compact rootWidth windows driver cuda x0 y0 now)._width) := by
  constructor
  · intro s v
    refine ⟨rfl, ?_⟩
    show 79 ≤ max 79 v
    exact le_max_left 79 v
  · intro devices compact rootWidth windows driver cuda x0 y0 now
    have hw : (DevicePanel_init devices compact rootWidth windows driver cuda x0 y0 now)._width
        = max 79 (max 79 rootWidth) := rfl
    constructor
    · rw [hw]
      omega
    · rw [hw]
      omega

/-- Claim C7: `draw` never mutates the panel's data model: the state (snapshot list,
geometry, compact flag, staged buffer and all other fields) is returned unchanged,
every cosmetic field derivation having happened inside `take_snapshots`. -/
theorem c7_draw_pure (s : PanelState) (timeStr : String) : (draw s timeStr).1 = s := rfl

/-- Claim C2 as stated is false: `draw` writes the current wall-clock string each
call, so two successive calls with no intervening poke or resize can emit different
output when the formatted time differs. -/
theorem c2_counterexample :
    ¬ (∀ (s : PanelState) (t1 t2 : String), (draw s t1).2 = (draw s t2).2) := by
  intro hAll
  have h := hAll sampleState0 "Mon" "Tue"
  exact absurd h (by decide)

/-- Claim C2 amended: with the wall-clock string factored out, two successive draw
calls with no intervening poke or resize emit operation lists sharing one common
front and one common tail, differing only in the single timestamp write (so the
output is identical whenever the formatted clock string is unchanged). -/
theorem c2_draw_idempotent_mod_clock (s : PanelState) (t1 t2 : String) :
    ∃ front tail,
      (draw s t1).2 = front ++ [clockOp s t1] ++ tail ∧
      (draw s t2).2 = front ++ [clockOp s t2] ++ tail :=
  ⟨drawPre s, drawDevices s, rfl, rfl⟩

theorem header_lines_length (s : PanelState) (c : Bool) (h : 0 < s.device_count) :
    (header_lines s c).length = if c then 5 else 6 := by
  unfold header_lines
  rw [if_pos h]
  cases c <;> simp

theorem frame_lines_length (s : PanelState) (c : Bool) (h : 0 < s.device_count) :
    (frame_lines s c).length = (if c then 5 else 6) + (if c then 2 else 3) * s.device_count := by
  have hh := header_lines_length s c h
  by_cases hw : 100 ≤ s._width <;>
    cases c <;>
    simp only [if_true, if_false, Bool.false_eq_true, ite_true, ite_false] at hh ⊢ <;>
    simp [frame_lines, hw, h, hh, List.length_set, List.length_append,
      List.length_dropLast, List.length_flatten, List.map_replicate,
      List.sum_replicate, smul_eq_mul] <;>
    omega

/-- Claim C8: for a panel with at least one tracked device, `frame_lines` returns
exactly one line fewer than the declared height for that mode, the compact height
being 4 plus twice the device count plus one, the full height 4 plus three times the
device count plus one. -/
theorem c8_frame_plus_header_fills_height (devices : List RawSnapshot)
    (hd : devices ≠ []) (compact : Bool) (rootWidth : Nat) (windows : Bool)
    (driver cuda : String) (x0 y0 : Int) (now : Nat) :
    (frame_lines (DevicePanel_init devices compact rootWidth windows driver cuda x0 y0 now) true).length + 1
      = (DevicePanel_init devices compact rootWidth windows driver cuda x0 y0 now).compact_height ∧
    (frame_lines (DevicePanel_init devices compact rootWidth windows driver cuda x0 y0 now) false).length + 1
      = (DevicePanel_init devices compact rootWidth windows driver cuda x0 y0 now).full_height ∧
    (DevicePanel_init devices compact rootWidth windows driver cuda x0 y0 now).compact_height
      = 4 + 2 * (devices.length + 1) ∧
    (DevicePanel_init devices compact rootWidth windows driver cuda x0 y0 now).full_height
      = 4 + 3 * (devices.length + 1) := by
  have hn : devices.length ≠ 0 := fun h => hd (List.eq_nil_of_length_eq_zero h)
  have hcount : (DevicePanel_init devices compact rootWidth windows driver cuda x0 y0 now).device_count
      = devices.length := rfl
  have hch : (DevicePanel_init devices compact rootWidth windows driver cuda x0 y0 now).compact_height
      = 4 + 2 * (devices.length + 1) := by
    show (if devices.length = 0 then 6 else 4 + 2 * (devices.length + 1)) = _
    rw [if_neg hn]
  have hfh : (DevicePanel_init devices compact rootWidth windows driver cuda x0 y0 now).full_height
      = 4 + 3 * (devices.length + 1) := by
    show (if devices.length = 0 then 6 else 4 + 3 * (devices.length + 1)) = _
    rw [if_neg hn]
  have hpos : 0 < (DevicePanel_init devices compact rootWidth windows driver cuda x0 y0 now).device_count := by
    rw [hcount]
    omega
  refine ⟨?_, ?_, hch, hfh⟩
  · have hf := frame_lines_length _ true hpos
    rw [hcount] at hf
    norm_num at hf
    rw [hch, hf]
    omega
  · have hf := frame_lines_length _ false hpos
    rw [hcount] at hf
    norm_num at hf
    rw [hfh, hf]
    omega

/-- Witness for claim C8 at a one-device panel. -/
theorem c8_frame_plus_header_fills_height_witness :
    (frame_lines (DevicePanel_init [sampleDevice] false 79 false "511.23" "11.6" 0 0 0) true).length + 1
      = (DevicePanel_init [sampleDevice] false 79 false "511.23" "11.6" 0 0 0).compact_height ∧
    (frame_lines (DevicePanel_init [sampleDevice] false 79 false "511.23" "11.6" 0 0 0) false).length + 1
      = (DevicePanel_init [sampleDevice] false 79 false "511.23" "11.6" 0 0 0).full_height ∧
    (DevicePanel_init [sampleDevice] false 79 false "511.23" "11.6" 0 0 0).compact_height
      = 4 + 2 * ([sampleDevice].length + 1) ∧
    (DevicePanel_init [sampleDevice] false 79 false "511.23" "11.6" 0 0 0).full_height
      = 4 + 3 * ([sampleDevice].length + 1) :=
  c8_frame_plus_header_fills_height [sampleDevice] (List.cons_ne_nil _ _) false 79 false
    "511.23" "11.6" 0 0 0

/-- Claim C1 as stated is false: the dedup window of the `ttl_cache` wrapper is
measured from the insertion time of the cached result, not from the previous call, so
two calls 0.9 time units apart can still trigger a second provider query when the
first of the pair was itself served from an older cache entry (calls at times 0, 0.9
and 1.8: the gap 0.9 is below the 1-unit window, yet the call at 1.8 queries). -/
theorem c1_counterexample :
    ¬ (∀ (s : PanelState) (ts : List Nat) (i : Nat),
        i + 1 < ts.length → ts.getD (i + 1) 0 - ts.getD i 0 < TTL →
        (runCalls s ts).1.getD (i + 1) true = false) := by
  intro hAll
  have h := hAll sampleState0 [0, 9, 18] 1 (by decide) (by decide)
  exact absurd h (by decide)

/-- Claim C1 amended: the dedup window is measured from the provider query that
filled the cache: a call strictly inside the window of the most recent query returns
the cached list without querying and leaves the state untouched, while a call at or
beyond the window (or with an empty cache) performs a fresh sweep of every tracked
device and restarts the window at its own time. -/
theorem c1_ttl_dedup (s : PanelState) (now : Nat) :
    (∀ r t0, s.cache = some (r, t0) → now < t0 + TTL →
        take_snapshots s now = (r, s, false, [])) ∧
    (∀ r t0, s.cache = some (r, t0) → t0 + TTL ≤ now →
        take_snapshots s now = takeFresh s now ∧
        (take_snapshots s now).2.2.1 = true ∧
        (take_snapshots s now).1 = computeSnapshots s.devices ∧
        (take_snapshots s now).2.1.cache = some (computeSnapshots s.devices, now)) ∧
    (s.cache = none →
        take_snapshots s now = takeFresh s now ∧
        (take_snapshots s now).2.2.1 = true ∧
        (take_snapshots s now).1 = computeSnapshots s.devices ∧
        (take_snapshots s now).2.1.cache = some (computeSnapshots s.devices, now)) := by
  refine ⟨?_, ?_, ?_⟩
  · intro r t0 hc hlt
    simp [take_snapshots, hc, hlt]
  · intro r t0 hc hge
    have hnlt : ¬ now < t0 + TTL := by omega
    refine ⟨?_, ?_, ?_, ?_⟩ <;> simp [take_snapshots, hc, hnlt, takeFresh]
  · intro hc
    refine ⟨?_, ?_, ?_, ?_⟩ <;> simp [take_snapshots, hc, takeFresh]

/-- Witness for claim C1: a call inside the window of the cache entry is served from
it without a query; calls past the window, or with an empty cache, query. -/
theorem c1_ttl_dedup_witness :
    take_snapshots sampleStateCached 5 = ([], sampleStateCached, false, []) ∧
    (take_snapshots sampleStateCached 12).2.2.1 = true ∧
    (take_snapshots sampleState0 7).2.2.1 = true :=
  ⟨(c1_ttl_dedup sampleStateCached 5).1 [] 0 rfl (by decide),
   ((c1_ttl_dedup sampleStateCached 12).2.1 [] 0 rfl (by decide)).2.1,
   ((c1_ttl_dedup sampleState0 7).2.2 rfl).2.1⟩

theorem runPoller_false_count (pc : PollerPC) (n : Nat) :
    (runPoller false pc n).count PollEv.queryStart ≤ startBound pc := by
  induction n generalizing pc with
  | zero => simp [runPoller, startBound]
  | succ n ih =>
    cases pc with
    | waiting =>
      simpa [runPoller, pollStep, startBound] using ih PollerPC.waiting
    | checking =>
      simpa [runPoller, pollStep, startBound] using ih PollerPC.exited
    | passedCheck =>
      have h := ih PollerPC.midQuery
      simp only [startBound] at h ⊢
      simp [runPoller, pollStep, List.count_cons]
      omega
    | midQuery =>
      have h := ih PollerPC.sleeping
      simp only [startBound] at h ⊢
      simp [runPoller, pollStep, List.count_cons]
      omega
    | sleeping =>
      simpa [runPoller, pollStep, startBound] using ih PollerPC.checking
    | exited =>
      simpa [runPoller, pollStep, startBound] using ih PollerPC.exited

/-- Claim C6: `destroy` clears the poller's running flag; once the flag is false the
poller begins at most one further provider query from any position in its cycle (one
query exactly when it sits between a passed flag check and the query, none
otherwise), and the poller only ever exits from the loop-head check, never from
inside a query. -/
theorem c6_destroy_stops (s : PanelState) (pc : PollerPC) (n : Nat) :
    (destroy s).daemon_running = false ∧
    (runPoller false pc n).count PollEv.queryStart ≤ 1 ∧
    (∀ pc0 : PollerPC, pc0 ≠ PollerPC.exited →
      (pollStep false pc0).1 = PollerPC.exited → pc0 = PollerPC.checking) := by
  refine ⟨rfl, ?_, ?_⟩
  · have h := runPoller_false_count pc n
    have hb : startBound pc ≤ 1 := by cases pc <;> simp [startBound]
    omega
  · intro pc0 hne h
    cases pc0 <;> first
      | rfl
      | exact absurd rfl hne
      | simp [pollStep] at h

/-- Witness for claim C6 at a poller caught between its flag check and the query:
exactly the in-flight cycle's query can still happen, and the only exit point is the
loop-head check. -/
theorem c6_destroy_stops_witness :
    (destroy sampleState0).daemon_running = false ∧
    (runPoller false PollerPC.passedCheck 5).count PollEv.queryStart ≤ 1 ∧
    PollerPC.checking = PollerPC.checking :=
  ⟨(c6_destroy_stops sampleState0 PollerPC.passedCheck 5).1,
   (c6_destroy_stops sampleState0 PollerPC.passedCheck 5).2.1,
   (c6_destroy_stops sampleState0 PollerPC.passedCheck 5).2.2 PollerPC.checking
     (by decide) (by decide)⟩

/-- Claim C5 as stated is false: when enumeration fails because the provider library
is absent, `main` aborts with exit status 1 before constructing the dashboard but
prints nothing itself (cli.py line 132-133 returns silently), so not every
enumeration failure prints one line to the error stream. -/
theorem c5_counterexample :
    ¬ (∀ r : CountResult, isEnumError r = true →
        (mainEnumerate r).dashboardConstructed = false ∧
        (mainEnumerate r).exitCode = some 1 ∧
        (mainEnumerate r).stderrLines.length = 1) := by
  intro hAll
  have h := hAll CountResult.errLibraryNotFound rfl
  exact absurd h.2.2 (by decide)

/-- Claim C5 amended: every enumeration failure aborts `main` before the dashboard is
constructed and yields exit status 1; a provider error other than
library-not-found prints exactly one line describing it to the error stream, while
the library-not-found case aborts with nothing printed by `main` itself. -/
theorem c5_enumeration_failure (r : CountResult) (h : isEnumError r = true) :
    (mainEnumerate r).dashboardConstructed = false ∧
    (mainEnumerate r).exitCode = some 1 ∧
    (∀ msg, r = CountResult.errOther msg → (mainEnumerate r).stderrLines.length = 1) ∧
    (r = CountResult.errLibraryNotFound → (mainEnumerate r).stderrLines = []) := by
  cases r with
  | ok n => simp [isEnumError] at h
  | errLibraryNotFound =>
    refine ⟨rfl, rfl, ?_, fun _ => rfl⟩
    intro msg hm
    exact absurd hm (by simp)
  | errOther msg =>
    refine ⟨rfl, rfl, ?_, ?_⟩
    · intro m hm
      rfl
    · intro hm
      exact absurd hm (by simp)

/-- Witness for claim C5 at a concrete provider error carrying a message. -/
theorem c5_enumeration_failure_witness :
    (mainEnumerate (CountResult.errOther "Driver Not Loaded")).dashboardConstructed = false ∧
    (mainEnumerate (CountResult.errOther "Driver Not Loaded")).exitCode = some 1 ∧
    (mainEnumerate (CountResult.errOther "Driver Not Loaded")).stderrLines.length = 1 := by
  have h := c5_enumeration_failure (CountResult.errOther "Driver Not Loaded") rfl
  exact ⟨h.1, h.2.1, h.2.2.1 "Driver Not Loaded" rfl⟩

/-- Claim C3: after `poke` returns, the render-visible snapshot list equals the list
staged in the panel buffer, the store happened at positive lock depth, and the swap
did occur in the emitted trace. -/
theorem c3_poke_swap (s : PanelState) :
    ((poke s).1)._snapshots = s._snapshot_buffer ∧
    writesLocked (poke s).2 = true ∧
    Ev.writeSnapshots ∈ (poke s).2 := by
  cases hd : s.daemon_running <;>
    simp [poke, snapshots_set, writesLocked, writesLockedAux, hd]

end Nvitop
